import Mathlib

/-!
# Verification of the Plex MCP server specification

A shallow embedding of the server's movie tool layer
(`tools/movie_tools.py`), the JSON-RPC message router (`mcp_handler.py`)
and the SSE POST endpoint (`main.py`), together with theorems settling
the frozen claims about them.

Modelling conventions:
* the external Plex catalog (`plexapi`) is modelled as a list of
  `Movie` records; `section.search(title=...)` is modelled as
  case-insensitive substring filtering, per the spec's description of
  the catalog accessor ("equality/substring predicate");
* `plex_client.get_movie_library()` may raise, so tools receive an
  `Except String (List Movie)`; the `except` blocks of the Python tools
  correspond to the `.error` branches, and a tool's `{"error": msg}`
  payload is `Except.error msg`;
* Python floats (`rating`) are modelled as exact rationals: no claim
  depends on rounding;
* Python truthiness tests (`if year:`, `if min_rating:`, `if genres:`)
  are translated literally: `0`, `None`, `[]` and `""` are falsy;
* the human-readable `similarity_reasons` / `match_reasons` strings are
  not modelled (they depend on Python `set` iteration order, which is
  unspecified); no claim depends on them;
* each `tools/call` message carries the arguments dict of one of the
  embedded tools (each key optionally present), mirroring keyword
  binding of `tool_method(**arguments)`: a missing key with a Python
  default falls back to it, a missing required key raises `TypeError`,
  which `_handle_tools_call` converts to a `-32603` protocol error.
-/

/-- A catalog item as seen through `plexapi` attribute access in
`movie_tools.py` (`getattr(movie, 'year', None)` etc.). `roles` pairs an
actor tag with its role annotation. -/
structure Movie where
  title : String
  year : Option Int
  rating : Option Rat
  duration : Option Int
  summary : String
  genres : List String
  directors : List String
  writers : List String
  roles : List (String × String)
  countries : List String
  studio : Option String
  contentRating : Option String
  tags : List String
deriving DecidableEq

/-- Python `str.lower()` (ASCII model, character by character; kept as a
plain list map so that concrete witnesses evaluate in the kernel). -/
def pyLower (s : String) : String :=
  ⟨s.data.map Char.toLower⟩

/-- `s[:n]` on strings, as a plain list take. -/
def strTake (s : String) (n : Nat) : String :=
  ⟨s.data.take n⟩

/-- `needle` occurs as a contiguous sublist of the second argument. Used
to model the catalog's substring title search. -/
def containsSub (needle : List Char) : List Char → Bool
  | [] => needle.isEmpty
  | c :: rest => needle.isPrefixOf (c :: rest) || containsSub needle rest

/-- Model of `section.search(title=query, limit=n)`: case-insensitive
substring match on titles, first `n` hits in source order. -/
def searchTitle (movies : List Movie) (query : String) (limit : Int) : List Movie :=
  (movies.filter (fun m => containsSub (pyLower query).data (pyLower m.title).data)).take
    limit.toNat

/-- `MovieTools._truncate_summary`: empty stays empty, otherwise cut at
`maxLen` characters and append an ellipsis when the text was longer. -/
def truncate_summary (s : String) (maxLen : Nat) : String :=
  if s = "" then ""
  else if maxLen < s.length then strTake s maxLen ++ "..." else s

/-- Normalize one slice endpoint the way Python does for `xs[i:j]`:
negative indices count from the end, then clamp into `[0, n]`. -/
def pySliceIdx (n : Nat) (i : Int) : Nat :=
  if i < 0 then (max 0 ((n : Int) + i)).toNat else min i.toNat n

/-- Python list slicing `xs[i:j]`. -/
def pySlice (xs : List α) (i j : Int) : List α :=
  (xs.take (pySliceIdx xs.length j)).drop (pySliceIdx xs.length i)

/-- The `append; if len(...) >= limit: break` scan shared by
`search_by_year_range` and `search_multi_criteria`: collect `f m` for
matching movies, stopping as soon as the collected count reaches
`limit`. `cnt` is the number already collected. -/
def scanWithLimit (p : Movie → Bool) (f : Movie → α) (limit : Int) :
    List Movie → Int → List α
  | [], _ => []
  | m :: rest, cnt =>
    if p m then
      if limit ≤ cnt + 1 then [f m]
      else f m :: scanWithLimit p f limit rest (cnt + 1)
    else scanWithLimit p f limit rest cnt

/-- `d[k] = d.get(k, 0) + 1` on an insertion-ordered dict modelled as an
association list. -/
def bump (k : String) : List (String × Nat) → List (String × Nat)
  | [] => [(k, 1)]
  | (k', c) :: t => if k' = k then (k', c + 1) :: t else (k', c) :: bump k t

/-- Python truthiness of an optional integer (`if year:`). -/
def truthyInt : Option Int → Bool
  | none => false
  | some v => v != 0

/-- Python truthiness of an optional float (`if min_rating:`,
`if not movie_rating`). -/
def truthyRat : Option Rat → Bool
  | none => false
  | some v => v != 0

/-- Python truthiness of an optional list (`if genres:`). -/
def listProvided (o : Option (List String)) : Bool :=
  !(o.getD []).isEmpty

/-- The decade dict key `f"{(year // 10) * 10}s"` (Python `//` is floor
division). -/
def decadeKey (y : Int) : String :=
  toString (y.fdiv 10 * 10) ++ "s"

/-- `len(set(xs) & set(ys))`: distinct elements of `xs` also in `ys`. -/
def interCount (xs ys : List String) : Nat :=
  (xs.dedup.filter (fun x => ys.contains x)).length

/-- Descending comparison by a key, the relation under which
`List.insertionSort` models Python's stable
`sorted(key=..., reverse=True)`. -/
def descBy [LinearOrder β] (f : α → β) : α → α → Prop :=
  fun a b => f b ≤ f a

instance [LinearOrder β] (f : α → β) : DecidableRel (descBy f) :=
  fun a b => inferInstanceAs (Decidable (f b ≤ f a))

instance [LinearOrder β] (f : α → β) : IsTotal α (descBy f) :=
  ⟨fun a b => le_total (f b) (f a)⟩

instance [LinearOrder β] (f : α → β) : IsTrans α (descBy f) :=
  ⟨fun _ _ _ h₁ h₂ => le_trans h₂ h₁⟩

/-- The movie dict built by `list_all_movies` (summary truncated to 150)
and `search_movies` (truncated to 200). -/
structure MovieEntry where
  title : String
  year : Option Int
  rating : Option Rat
  genres : List String
  directors : List String
  summary : String
deriving DecidableEq

def movieEntry (maxLen : Nat) (m : Movie) : MovieEntry :=
  ⟨m.title, m.year, m.rating, m.genres, m.directors, truncate_summary m.summary maxLen⟩

/-- Result dict of `list_all_movies`. -/
structure ListAllData where
  movies : List MovieEntry
  total : Int
  offset : Int
  limit : Int
  has_more : Bool
deriving DecidableEq

/-- Result dict of `search_movies`. -/
structure SearchMoviesData where
  movies : List MovieEntry
  total : Nat
deriving DecidableEq

/-- A movie dict of `search_by_year_range` (`year` is the matched,
necessarily truthy year). -/
structure YREntry where
  title : String
  year : Int
  rating : Option Rat
  genres : List String
  directors : List String
deriving DecidableEq

/-- Result dict of `search_by_year_range`. -/
structure YearRangeData where
  movies : List YREntry
  year_range : String
  total : Nat
deriving DecidableEq

/-- The dict built by `get_movie_details` (`actors` holds
`roles[:10]` as (name, role) pairs). -/
structure DetailsData where
  title : String
  year : Option Int
  rating : Option Rat
  duration : Option Int
  summary : String
  genres : List String
  directors : List String
  writers : List String
  actors : List (String × String)
  countries : List String
  studio : Option String
  content_rating : Option String
  tags : List String
deriving DecidableEq

/-- A scored candidate of `find_similar_by_metadata` (the textual
`similarity_reasons` are not modelled). -/
structure SimEntry where
  title : String
  year : Option Int
  rating : Option Rat
  genres : List String
  similarity_score : Nat
deriving DecidableEq

/-- Result dict of `find_similar_by_metadata`. -/
structure SimilarData where
  reference_movie : String
  similar_movies : List SimEntry
  similarity_factors : List String
  total_found : Nat
deriving DecidableEq

/-- A movie dict of `search_multi_criteria` (textual `match_reasons`
not modelled). -/
structure MultiEntry where
  title : String
  year : Option Int
  rating : Option Rat
  genres : List String
  directors : List String
deriving DecidableEq

/-- Result dict of `search_multi_criteria`, including the echoed
`search_criteria`. -/
structure MultiData where
  movies : List MultiEntry
  genres : Option (List String)
  directors : Option (List String)
  actors : Option (List String)
  year_range : Option (Int × Int)
  min_rating : Option Rat
  total : Nat
deriving DecidableEq

/-- Result dict of `get_library_stats`: the full insertion-ordered
decades dict and the two top-10 lists. -/
structure StatsData where
  total_movies : Nat
  decades : List (String × Nat)
  top_genres : List (String × Nat)
  top_directors : List (String × Nat)
deriving DecidableEq

/-- `MovieTools.list_all_movies(limit=100, offset=0)`. -/
def list_all_movies (cat : Except String (List Movie)) (limit offset : Int) :
    Except String ListAllData :=
  match cat with
  | .error e => .error e
  | .ok all_movies =>
    let total : Int := all_movies.length
    let movies := pySlice all_movies offset (offset + limit)
    .ok ⟨movies.map (movieEntry 150), total, offset, limit, decide (offset + limit < total)⟩

/-- `MovieTools.search_movies(query, limit=10)`. -/
def search_movies (cat : Except String (List Movie)) (query : String) (limit : Int) :
    Except String SearchMoviesData :=
  match cat with
  | .error e => .error e
  | .ok all_movies =>
    let movies := (searchTitle all_movies query limit).map (movieEntry 200)
    .ok ⟨movies, movies.length⟩

/-- The match test of `search_by_year_range`:
`if year and start_year <= year <= end_year`. -/
def yrPred (start_year end_year : Int) (m : Movie) : Bool :=
  match m.year with
  | none => false
  | some y => y != 0 && decide (start_year ≤ y) && decide (y ≤ end_year)

def yrEntry (m : Movie) : YREntry :=
  ⟨m.title, m.year.getD 0, m.rating, m.genres, m.directors⟩

/-- `MovieTools.search_by_year_range(start_year, end_year, limit=30)`. -/
def search_by_year_range (cat : Except String (List Movie))
    (start_year end_year limit : Int) : Except String YearRangeData :=
  match cat with
  | .error e => .error e
  | .ok all_movies =>
    let filtered := scanWithLimit (yrPred start_year end_year) yrEntry limit all_movies 0
    .ok ⟨filtered, toString start_year ++ "-" ++ toString end_year, filtered.length⟩

/-- `MovieTools.get_movie_details(title)`: first search hit at
`limit=1`, or the not-found error payload. -/
def get_movie_details (cat : Except String (List Movie)) (title : String) :
    Except String DetailsData :=
  match cat with
  | .error e => .error e
  | .ok all_movies =>
    match searchTitle all_movies title 1 with
    | [] => .error ("Movie \x27" ++ title ++ "\x27 not found")
    | m :: _ =>
      .ok ⟨m.title, m.year, m.rating, m.duration, m.summary, m.genres, m.directors,
        m.writers, m.roles.take 10, m.countries, m.studio, m.contentRating, m.tags⟩

/-- The decade term of the similarity score: `+1` when both years are
truthy and `(year // 10) * 10` agree. -/
def decadeBonus (ry my : Option Int) : Nat :=
  match ry, my with
  | some r, some y =>
    if r != 0 && y != 0 && (r.fdiv 10 * 10 == y.fdiv 10 * 10) then 1 else 0
  | _, _ => 0

def defaultFactors : List String := ["genres", "directors", "actors", "decade"]

/-- The per-candidate similarity score of `find_similar_by_metadata`:
shared genres ×2, shared directors ×3, shared actors ×1 (against the
reference's `actors`, i.e. its first ten cast entries), same decade +1,
each term gated by its factor. -/
def simScore (sf : List String) (ref : DetailsData) (m : Movie) : Nat :=
  (if sf.contains "genres" then 2 * interCount ref.genres m.genres else 0)
  + (if sf.contains "directors" then 3 * interCount ref.directors m.directors else 0)
  + (if sf.contains "actors" then
      interCount (ref.actors.map Prod.fst) (m.roles.map Prod.fst) else 0)
  + (if sf.contains "decade" then decadeBonus ref.year m.year else 0)

/-- The positive-score candidate list of `find_similar_by_metadata`, in
collection order, before sorting. -/
def scoredCandidates (sf : List String) (ref : DetailsData) (reference_movie : String)
    (all_movies : List Movie) : List SimEntry :=
  (all_movies.filter (fun m => pyLower m.title != pyLower reference_movie)).filterMap
    (fun m =>
      let s := simScore sf ref m
      if 0 < s then some ⟨m.title, m.year, m.rating, m.genres, s⟩ else none)

/-- `MovieTools.find_similar_by_metadata(reference_movie,
similarity_factors=None)`. -/
def find_similar_by_metadata (cat : Except String (List Movie))
    (reference_movie : String) (similarity_factors : Option (List String)) :
    Except String SimilarData :=
  let sf := similarity_factors.getD defaultFactors
  match get_movie_details cat reference_movie with
  | .error e => .error e
  | .ok ref =>
    match cat with
    | .error e => .error e
    | .ok all_movies =>
      let scored := scoredCandidates sf ref reference_movie all_movies
      let sorted := List.insertionSort (descBy SimEntry.similarity_score) scored
      .ok ⟨reference_movie, sorted.take 20, sf, scored.length⟩

/-- Case-insensitive tag-list test of `search_multi_criteria`:
some wanted tag occurs (lowercased) among the movie's (lowercased)
tags. -/
def tagListPass (wanted : List String) (movieTags : List String) : Bool :=
  !((wanted.filter (fun w => (movieTags.map pyLower).contains (pyLower w))).isEmpty)

/-- The conjunctive match test of `search_multi_criteria`: each
criterion is applied only when truthy in the Python sense. -/
def multiMatch (genres directors actors : Option (List String))
    (year_range : Option (Int × Int)) (min_rating : Option Rat) (m : Movie) : Bool :=
  (if listProvided genres then tagListPass (genres.getD []) m.genres else true)
  && (if listProvided directors then tagListPass (directors.getD []) m.directors else true)
  && (if listProvided actors then tagListPass (actors.getD []) (m.roles.map Prod.fst)
      else true)
  && (match year_range with
      | some (a, b) =>
        match m.year with
        | some y => y != 0 && decide (a ≤ y) && decide (y ≤ b)
        | none => false
      | none => true)
  && (match min_rating with
      | some r =>
        if r != 0 then
          match m.rating with
          | some v => v != 0 && decide (r ≤ v)
          | none => false
        else true
      | none => true)

def multiEntry (m : Movie) : MultiEntry :=
  ⟨m.title, m.year, m.rating, m.genres, m.directors⟩

/-- `MovieTools.search_multi_criteria(genres=None, directors=None,
actors=None, year_range=None, min_rating=None, limit=30)`. -/
def search_multi_criteria (cat : Except String (List Movie))
    (genres directors actors : Option (List String))
    (year_range : Option (Int × Int)) (min_rating : Option Rat) (limit : Int) :
    Except String MultiData :=
  match cat with
  | .error e => .error e
  | .ok all_movies =>
    let ms := scanWithLimit (multiMatch genres directors actors year_range min_rating)
      multiEntry limit all_movies 0
    .ok ⟨ms, genres, directors, actors, year_range, min_rating, ms.length⟩

/-- One movie's contribution to the decades dict:
`if year: decades[f"{(year // 10) * 10}s"] += 1`. -/
def decadeStep (d : List (String × Nat)) (m : Movie) : List (String × Nat) :=
  match m.year with
  | some y => if y != 0 then bump (decadeKey y) d else d
  | none => d

/-- The decades dict of `get_library_stats`: one `bump` per movie with a
truthy year. -/
def decadesHist (movies : List Movie) : List (String × Nat) :=
  movies.foldl decadeStep []

/-- The genre-count dict of `get_library_stats`. -/
def genresHist (movies : List Movie) : List (String × Nat) :=
  movies.foldl (fun d m => m.genres.foldl (fun d' g => bump g d') d) []

/-- The director-count dict of `get_library_stats`. -/
def directorsHist (movies : List Movie) : List (String × Nat) :=
  movies.foldl (fun d m => m.directors.foldl (fun d' g => bump g d') d) []

/-- Python's stable `sorted(items, key=lambda x: x[1], reverse=True)`. -/
def sortedByCountDesc (l : List (String × Nat)) : List (String × Nat) :=
  List.insertionSort (descBy Prod.snd) l

/-- `MovieTools.get_library_stats()`: full decades dict, top-10 genre
and director counts. -/
def get_library_stats (cat : Except String (List Movie)) : Except String StatsData :=
  match cat with
  | .error e => .error e
  | .ok all_movies =>
    .ok ⟨all_movies.length, decadesHist all_movies,
      (sortedByCountDesc (genresHist all_movies)).take 10,
      (sortedByCountDesc (directorsHist all_movies)).take 10⟩

/-- JSON-RPC error object `{code, message}`. -/
structure RpcError where
  code : Int
  message : String
deriving DecidableEq

deriving instance DecidableEq for Except

/-- A tool's structured return value at dispatch (the handler stringifies
it into a text content block; the structure is kept here). -/
inductive ToolOutcome where
  | listAll (r : Except String ListAllData)
  | searchMoviesOut (r : Except String SearchMoviesData)
  | yearRange (r : Except String YearRangeData)
  | details (r : Except String DetailsData)
  | similar (r : Except String SimilarData)
  | multi (r : Except String MultiData)
  | stats (r : Except String StatsData)
deriving DecidableEq

/-- The `result` field of a JSON-RPC response. -/
inductive RpcResult where
  | initResult (protocolVersion serverName serverVersion : String)
  | toolsListing (names : List String)
  | content (outcome : ToolOutcome)
deriving DecidableEq

/-- A JSON-RPC response dict: `id` plus the `result` / `error` keys the
handler chose to set. -/
structure MCPResponse where
  id : Option Int
  result : Option RpcResult
  error : Option RpcError
deriving DecidableEq

/-- The `params.name` / `params.arguments` pair of a `tools/call`, for
the embedded tools: each constructor is a call to that tool whose
arguments dict optionally carries each schema key. `unknownTool` covers
every unregistered name. -/
inductive ToolCallArgs where
  | listAllMoviesArgs (limit offset : Option Int)
  | searchMoviesArgs (query : Option String) (limit : Option Int)
  | searchByYearRangeArgs (start_year end_year limit : Option Int)
  | getMovieDetailsArgs (title : Option String)
  | findSimilarArgs (reference_movie : Option String)
      (similarity_factors : Option (List String))
  | searchMultiArgs (genres directors actors : Option (List String))
      (year_range : Option (Int × Int)) (min_rating : Option Rat)
      (limit : Option Int)
  | getLibraryStatsArgs
  | unknownTool (name : String)
deriving DecidableEq

/-- An inbound JSON-RPC message as `MCPHandler.handle_message` reads it:
an optional `id` and one of the three recognized methods or an unknown
method name. -/
inductive MCPRequest where
  | initReq (id : Option Int)
  | toolsList (id : Option Int)
  | toolsCall (id : Option Int) (args : ToolCallArgs)
  | unknownMethod (id : Option Int) (method : String)
deriving DecidableEq

/-- `message.get("id")`. -/
def reqId : MCPRequest → Option Int
  | .initReq i => i
  | .toolsList i => i
  | .toolsCall i _ => i
  | .unknownMethod i _ => i

/-- A success response wrapping a tool outcome in `result.content`. -/
def okContent (i : Option Int) (o : ToolOutcome) : MCPResponse :=
  ⟨i, some (.content o), none⟩

/-- An error response; `result` is absent. -/
def protoError (i : Option Int) (code : Int) (msg : String) : MCPResponse :=
  ⟨i, none, some ⟨code, msg⟩⟩

/-- The 14 registered tool names, in `get_tool_definitions` order. -/
def tool_definition_names : List String :=
  ["get_library_stats", "list_all_movies", "search_movies", "search_by_genre",
   "search_by_director", "search_by_year_range", "get_all_genres",
   "get_all_directors", "get_recent_movies", "get_movie_details",
   "search_by_actor", "find_similar_by_metadata", "search_multi_criteria",
   "get_genre_combinations"]

/-- `MCPHandler._handle_tools_call`: unknown tool → `-32601`; keyword
binding of `tool_method(**arguments)` applies Python defaults for
missing optional keys and raises `TypeError` for missing required keys,
which the surrounding `except` turns into a `-32603` error response;
otherwise the tool's return value is wrapped in `result.content`. -/
def handle_tools_call (cat : Except String (List Movie)) (i : Option Int)
    (args : ToolCallArgs) : MCPResponse :=
  match args with
  | .unknownTool n => protoError i (-32601) ("Unknown tool: " ++ n)
  | .listAllMoviesArgs lim off =>
    okContent i (.listAll (list_all_movies cat (lim.getD 100) (off.getD 0)))
  | .searchMoviesArgs q lim =>
    match q with
    | none => protoError i (-32603)
        "search_movies() missing 1 required positional argument: \x27query\x27"
    | some query => okContent i (.searchMoviesOut (search_movies cat query (lim.getD 10)))
  | .searchByYearRangeArgs sy ey lim =>
    match sy, ey with
    | none, none => protoError i (-32603)
        "search_by_year_range() missing 2 required positional arguments: \x27start_year\x27 and \x27end_year\x27"
    | none, some _ => protoError i (-32603)
        "search_by_year_range() missing 1 required positional argument: \x27start_year\x27"
    | some _, none => protoError i (-32603)
        "search_by_year_range() missing 1 required positional argument: \x27end_year\x27"
    | some a, some b =>
      okContent i (.yearRange (search_by_year_range cat a b (lim.getD 30)))
  | .getMovieDetailsArgs t =>
    match t with
    | none => protoError i (-32603)
        "get_movie_details() missing 1 required positional argument: \x27title\x27"
    | some title => okContent i (.details (get_movie_details cat title))
  | .findSimilarArgs r sf =>
    match r with
    | none => protoError i (-32603)
        "find_similar_by_metadata() missing 1 required positional argument: \x27reference_movie\x27"
    | some ref => okContent i (.similar (find_similar_by_metadata cat ref sf))
  | .searchMultiArgs g d a yr mr lim =>
    okContent i (.multi (search_multi_criteria cat g d a yr mr (lim.getD 30)))
  | .getLibraryStatsArgs => okContent i (.stats (get_library_stats cat))

/-- `MCPHandler.handle_message`: route by method, answer unknown methods
with `-32601`, always carrying the inbound `id`. -/
def handle_message (cat : Except String (List Movie)) (msg : MCPRequest) : MCPResponse :=
  match msg with
  | .initReq i => ⟨i, some (.initResult "2024-11-05" "plex-mcp-server" "1.0.0"), none⟩
  | .toolsList i => ⟨i, some (.toolsListing tool_definition_names), none⟩
  | .toolsCall i args => handle_tools_call cat i args
  | .unknownMethod i m => protoError i (-32601) ("Unknown method: " ++ m)

/-- The per-client SSE queues (`message_queues`): client id → pending
responses in FIFO order. -/
abbrev QueueState := List (String × List MCPResponse)

/-- The `-32700` parse-error response of the POST endpoints. -/
def parseErrorResponse : MCPResponse :=
  protoError none (-32700) "Parse error"

/-- `POST /sse` (`main.sse_post_endpoint`): an unparseable body yields a
parse error and leaves the queues alone; a parsed message is handled,
the response is appended to every open queue, and the same response is
returned as the HTTP body. -/
def sse_post_endpoint (cat : Except String (List Movie)) (queues : QueueState)
    (body : Option MCPRequest) : MCPResponse × QueueState :=
  match body with
  | none => (parseErrorResponse, queues)
  | some msg =>
    let response := handle_message cat msg
    (response, queues.map (fun q => (q.1, q.2 ++ [response])))

/-- A movie with the given title and year and no other metadata; used to
build concrete test catalogs. -/
def mkMovie (t : String) (y : Option Int) : Movie :=
  ⟨t, y, none, none, "", [], [], [], [], [], none, none, []⟩

/-- Total count stored in a histogram dict. -/
def sumCounts (l : List (String × Nat)) : Nat :=
  (l.map Prod.snd).sum

theorem sumCounts_bump (k : String) (l : List (String × Nat)) :
    sumCounts (bump k l) = sumCounts l + 1 := by
  induction l with
  | nil => simp [bump, sumCounts]
  | cons h t ih =>
    obtain ⟨k', c⟩ := h
    by_cases hk : k' = k <;> simp [bump, hk, sumCounts] at ih ⊢ <;> omega

theorem sumCounts_decadeStep (d : List (String × Nat)) (m : Movie) :
    sumCounts (decadeStep d m) = sumCounts d + (if truthyInt m.year then 1 else 0) := by
  cases hy : m.year with
  | none => simp [decadeStep, truthyInt, hy]
  | some y =>
    by_cases h0 : y = 0 <;>
      simp [decadeStep, truthyInt, hy, h0, sumCounts_bump]

theorem sumCounts_decadesFold (movies : List Movie) :
    ∀ acc : List (String × Nat),
      sumCounts (movies.foldl decadeStep acc) =
        sumCounts acc + (movies.filter (fun m => truthyInt m.year)).length := by
  induction movies with
  | nil => intro acc; simp
  | cons m rest ih =>
    intro acc
    by_cases hm : truthyInt m.year <;>
      (simp [List.foldl_cons, ih, sumCounts_decadeStep, hm]; try omega)

theorem sumCounts_decadesHist (movies : List Movie) :
    sumCounts (decadesHist movies) =
      (movies.filter (fun m => truthyInt m.year)).length := by
  simpa [sumCounts] using sumCounts_decadesFold movies []

theorem scanWithLimit_eq_take (p : Movie → Bool) (f : Movie → α) (limit : Int)
    (l : List Movie) :
    ∀ cnt : Int, cnt < limit →
      scanWithLimit p f limit l cnt = ((l.filter p).map f).take (limit - cnt).toNat := by
  induction l with
  | nil => intro cnt _; simp [scanWithLimit]
  | cons m rest ih =>
    intro cnt h
    by_cases hp : p m
    · by_cases hl : limit ≤ cnt + 1
      · have hlim : limit = cnt + 1 := by omega
        have ht : (limit - cnt).toNat = 1 := by omega
        simp [scanWithLimit, hp, hl, List.filter_cons_of_pos hp, ht]
      · have h2 : cnt + 1 < limit := by omega
        have ht : (limit - cnt).toNat = (limit - (cnt + 1)).toNat + 1 := by omega
        simp [scanWithLimit, hp, hl, List.filter_cons_of_pos hp, ih (cnt + 1) h2, ht]
    · simp [scanWithLimit, hp, List.filter_cons_of_neg (by simpa using hp), ih cnt h]

theorem scanWithLimit_low (p : Movie → Bool) (f : Movie → α) (limit : Int)
    (l : List Movie) :
    ∀ cnt : Int, limit ≤ cnt + 1 →
      scanWithLimit p f limit l cnt = ((l.filter p).map f).take 1 := by
  induction l with
  | nil => intro cnt _; simp [scanWithLimit]
  | cons m rest ih =>
    intro cnt h
    by_cases hp : p m
    · simp [scanWithLimit, hp, h, List.filter_cons_of_pos hp]
    · simp [scanWithLimit, hp, List.filter_cons_of_neg (by simpa using hp), ih cnt h]

theorem scanWithLimit_mem (p : Movie → Bool) (f : Movie → α) (limit : Int)
    (l : List Movie) :
    ∀ cnt : Int, ∀ e ∈ scanWithLimit p f limit l cnt,
      ∃ m ∈ l, p m = true ∧ e = f m := by
  induction l with
  | nil => intro cnt e he; simp [scanWithLimit] at he
  | cons m rest ih =>
    intro cnt e he
    by_cases hp : p m
    · by_cases hl : limit ≤ cnt + 1
      · simp [scanWithLimit, hp, hl] at he
        exact ⟨m, by simp, hp, he⟩
      · simp [scanWithLimit, hp, hl] at he
        rcases he with he | he
        · exact ⟨m, by simp, hp, he⟩
        · obtain ⟨m', hm', hpm', he'⟩ := ih (cnt + 1) e he
          exact ⟨m', by simp [hm'], hpm', he'⟩
    · simp [scanWithLimit, hp] at he
      obtain ⟨m', hm', hpm', he'⟩ := ih cnt e he
      exact ⟨m', by simp [hm'], hpm', he'⟩

theorem take_min_length (xs : List α) (k : Nat) :
    xs.take (min k xs.length) = xs.take k := by
  rcases le_total k xs.length with h | h
  · rw [min_eq_left h]
  · rw [min_eq_right h, List.take_length, List.take_of_length_le h]

theorem drop_min_of_length_le (ys : List α) (k n : Nat) (h : ys.length ≤ n) :
    ys.drop (min k n) = ys.drop k := by
  rcases le_total k n with hk | hk
  · rw [min_eq_left hk]
  · rw [min_eq_right hk, List.drop_eq_nil_of_le h,
      List.drop_eq_nil_of_le (le_trans h hk)]

/-- For nonnegative `offset` and `limit`, the Python slice
`xs[offset : offset + limit]` is drop-then-take. -/
theorem pySlice_nonneg (xs : List α) (o l : Int) (ho : 0 ≤ o) (hl : 0 ≤ l) :
    pySlice xs o (o + l) = (xs.drop o.toNat).take l.toNat := by
  have h1 : ¬(o < 0) := by omega
  have h2 : ¬(o + l < 0) := by omega
  rw [pySlice, pySliceIdx, pySliceIdx, if_neg h1, if_neg h2, take_min_length,
    drop_min_of_length_le _ _ _ (le_trans (List.take_sublist _ _).length_le le_rfl),
    Int.toNat_add ho hl, List.drop_take, Nat.add_sub_cancel_left]

theorem filter_orderedInsert_descBy [LinearOrder β] (f : α → β) (c : β) (a : α)
    (l : List α) :
    (List.orderedInsert (descBy f) a l).filter (fun x => decide (f x = c)) =
      if f a = c then a :: l.filter (fun x => decide (f x = c))
      else l.filter (fun x => decide (f x = c)) := by
  induction l with
  | nil =>
    by_cases hac : f a = c <;> simp [List.orderedInsert, hac]
  | cons b t ih =>
    rw [List.orderedInsert]
    by_cases hab : descBy f a b
    · rw [if_pos hab]
      by_cases hac : f a = c <;> simp [List.filter_cons, hac]
    · rw [if_neg hab]
      have hfb : f a < f b := lt_of_not_le hab
      by_cases hac : f a = c
      · have hbc : ¬(f b = c) := by rw [← hac]; exact (ne_of_gt hfb)
        simp [List.filter_cons, hbc, ih, hac]
      · simp [List.filter_cons, ih, hac]

theorem filter_insertionSort_descBy [LinearOrder β] (f : α → β) (c : β) :
    ∀ l : List α,
      (List.insertionSort (descBy f) l).filter (fun x => decide (f x = c)) =
        l.filter (fun x => decide (f x = c)) := by
  intro l
  induction l with
  | nil => rfl
  | cons a t ih =>
    rw [List.insertionSort, filter_orderedInsert_descBy, ih, List.filter_cons]
    by_cases hac : f a = c <;> simp [hac]

/-- The standard "stable descending sort" package: the sorted list is a
permutation of the input, pairwise descending in the key, and keeps the
input's relative order within every tie class. -/
theorem stableSortDesc_spec [LinearOrder β] (f : α → β) (l : List α) :
    (List.insertionSort (descBy f) l).Perm l ∧
      List.Pairwise (fun a b => f b ≤ f a) (List.insertionSort (descBy f) l) ∧
      ∀ c : β, (List.insertionSort (descBy f) l).filter (fun x => decide (f x = c)) =
        l.filter (fun x => decide (f x = c)) :=
  ⟨List.perm_insertionSort _ l, List.sorted_insertionSort (descBy f) l,
    fun c => filter_insertionSort_descBy f c l⟩

/-- C7: every response produced by the message handler, for every inbound
message (initialize, tools/list, tools/call with any embedded argument
shape, unknown method, or a dispatch that raises at keyword binding),
carries exactly one of a `result` field or an `error` field, and its `id`
is the inbound message's `id`. -/
theorem c7_response_exclusive_and_id_preserved
    (cat : Except String (List Movie)) (msg : MCPRequest) :
    ((handle_message cat msg).result.isSome = true ∧
        (handle_message cat msg).error = none ∨
      (handle_message cat msg).result = none ∧
        (handle_message cat msg).error.isSome = true) ∧
    (handle_message cat msg).id = reqId msg := by
  cases msg with
  | initReq i => simp [handle_message, reqId]
  | toolsList i => simp [handle_message, reqId]
  | unknownMethod i m => simp [handle_message, protoError, reqId]
  | toolsCall i args =>
    cases args with
    | searchMoviesArgs q lim =>
      cases q <;>
        simp [handle_message, handle_tools_call, okContent, protoError, reqId]
    | searchByYearRangeArgs sy ey lim =>
      cases sy <;> cases ey <;>
        simp [handle_message, handle_tools_call, okContent, protoError, reqId]
    | getMovieDetailsArgs t =>
      cases t <;>
        simp [handle_message, handle_tools_call, okContent, protoError, reqId]
    | findSimilarArgs r sf =>
      cases r <;>
        simp [handle_message, handle_tools_call, okContent, protoError, reqId]
    | _ =>
      simp [handle_message, handle_tools_call, okContent, protoError, reqId]

/-- C9: for every POST body that parses to a message, `POST /sse` returns
the handler's response synchronously and appends that same response to
every currently-open client queue (broadcast, not routed). -/
theorem c9_sse_post_broadcasts (cat : Except String (List Movie))
    (queues : QueueState) (msg : MCPRequest) :
    (sse_post_endpoint cat queues (some msg)).1 = handle_message cat msg ∧
    (sse_post_endpoint cat queues (some msg)).2.length = queues.length ∧
    (∀ q ∈ queues,
      (q.1, q.2 ++ [handle_message cat msg]) ∈ (sse_post_endpoint cat queues (some msg)).2) ∧
    (∀ q' ∈ (sse_post_endpoint cat queues (some msg)).2,
      ∃ q ∈ queues, q'.1 = q.1 ∧ q'.2 = q.2 ++ [handle_message cat msg]) := by
  refine ⟨rfl, by simp [sse_post_endpoint], ?_, ?_⟩
  · intro q hq
    simp only [sse_post_endpoint]
    exact List.mem_map.mpr ⟨q, hq, rfl⟩
  · intro q' hq'
    simp only [sse_post_endpoint] at hq'
    obtain ⟨q, hq, hfq⟩ := List.mem_map.mp hq'
    exact ⟨q, hq, by rw [← hfq], by rw [← hfq]⟩

/-- C9 witness: with two open client queues, a posted `initialize` is
answered synchronously and the identical response lands at the tail of
both queues. -/
theorem c9_sse_post_broadcasts_witness :
    (sse_post_endpoint (.ok []) [("a", []), ("b", [])] (some (.initReq (some 7)))).1 =
      handle_message (.ok []) (.initReq (some 7)) ∧
    (sse_post_endpoint (.ok []) [("a", []), ("b", [])] (some (.initReq (some 7)))).2.length = 2 ∧
    (∀ q ∈ ([("a", []), ("b", [])] : QueueState),
      (q.1, q.2 ++ [handle_message (.ok []) (.initReq (some 7))]) ∈
        (sse_post_endpoint (.ok []) [("a", []), ("b", [])] (some (.initReq (some 7)))).2) ∧
    (∀ q' ∈ (sse_post_endpoint (.ok []) [("a", []), ("b", [])] (some (.initReq (some 7)))).2,
      ∃ q ∈ ([("a", []), ("b", [])] : QueueState),
        q'.1 = q.1 ∧ q'.2 = q.2 ++ [handle_message (.ok []) (.initReq (some 7))]) :=
  c9_sse_post_broadcasts (.ok []) [("a", []), ("b", [])] (.initReq (some 7))

/-- C1 (amended): a missing optional argument falls back to the Python
default declared for the tool (`search_movies` limit 10,
`list_all_movies` limit 100 / offset 0), while a missing required
argument (e.g. `search_movies` without `query`) raises `TypeError` at
keyword binding, which `_handle_tools_call` surfaces as a JSON-RPC
protocol-level error response with code `-32603` and no `result`. -/
theorem c1_amended_argument_binding (cat : Except String (List Movie))
    (q : String) (i : Option Int) :
    handle_message cat (.toolsCall i (.searchMoviesArgs (some q) none)) =
      okContent i (.searchMoviesOut (search_movies cat q 10)) ∧
    handle_message cat (.toolsCall i (.listAllMoviesArgs none none)) =
      okContent i (.listAll (list_all_movies cat 100 0)) ∧
    (handle_message cat (.toolsCall i (.searchMoviesArgs none none))).result = none ∧
    (handle_message cat (.toolsCall i (.searchMoviesArgs none none))).error =
      some ⟨-32603, "search_movies() missing 1 required positional argument: \x27query\x27"⟩ :=
  ⟨rfl, rfl, rfl, rfl⟩

/-- C1 counterexample: calling `search_movies` with no `query` yields a
JSON-RPC protocol-level `error` (code `-32603`) and no `result` at all —
not a handler-level error inside the tool's result payload. -/
theorem c1_counterexample :
    (handle_message (.ok []) (.toolsCall (some 1) (.searchMoviesArgs none none))).result =
      none ∧
    (handle_message (.ok []) (.toolsCall (some 1) (.searchMoviesArgs none none))).error =
      some ⟨-32603, "search_movies() missing 1 required positional argument: \x27query\x27"⟩ :=
  ⟨rfl, rfl⟩

/-- C8: operational errors surface inside successful responses: a
catalog failure makes `get_movie_details` return its message as a
data-level error payload inside `result` (with no JSON-RPC `error`), and
a title matching nothing returns the payload
`{error: "Movie '<title>' not found"}` inside `result`. -/
theorem c8_operational_errors_are_data (t : String) (i : Option Int) :
    (∀ e : String,
      (handle_message (.error e) (.toolsCall i (.getMovieDetailsArgs (some t)))).result =
          some (.content (.details (.error e))) ∧
        (handle_message (.error e) (.toolsCall i (.getMovieDetailsArgs (some t)))).error =
          none) ∧
    (∀ movies : List Movie,
      (∀ m ∈ movies, containsSub (pyLower t).data (pyLower m.title).data = false) →
      (handle_message (.ok movies) (.toolsCall i (.getMovieDetailsArgs (some t)))).result =
          some (.content (.details
            (.error ("Movie \x27" ++ t ++ "\x27 not found")))) ∧
        (handle_message (.ok movies) (.toolsCall i (.getMovieDetailsArgs (some t)))).error =
          none) := by
  constructor
  · intro e; exact ⟨rfl, rfl⟩
  · intro movies h
    have hs : searchTitle movies t 1 = [] := by
      unfold searchTitle
      rw [List.filter_eq_nil_iff.mpr (fun m hm => by rw [h m hm]; simp)]
      rfl
    constructor <;>
      simp [handle_message, handle_tools_call, get_movie_details, hs, okContent]

/-- C8 witness: against a one-movie catalog with no matching title,
looking up "Inception" yields the not-found payload inside a success
response. -/
theorem c8_operational_errors_are_data_witness :
    (∀ m ∈ [mkMovie "Alpha" none],
      containsSub (pyLower "Inception").data (pyLower m.title).data = false) ∧
    (handle_message (.ok [mkMovie "Alpha" none])
        (.toolsCall (some 2) (.getMovieDetailsArgs (some "Inception")))).result =
      some (.content (.details (.error "Movie \x27Inception\x27 not found"))) ∧
    (handle_message (.ok [mkMovie "Alpha" none])
        (.toolsCall (some 2) (.getMovieDetailsArgs (some "Inception")))).error = none :=
  ⟨by decide,
    ((c8_operational_errors_are_data "Inception" (some 2)).2 [mkMovie "Alpha" none]
      (by decide)).1,
    ((c8_operational_errors_are_data "Inception" (some 2)).2 [mkMovie "Alpha" none]
      (by decide)).2⟩

/-- C2 (amended): for nonnegative `offset` and `limit`,
`list_all_movies` reports `total` = collection size, `has_more` iff
`offset + limit < total`, and a window of exactly
`min(limit, max(0, total - offset))` movies taken from positions
`[offset, offset + limit)` of the collection in source order. -/
theorem c2_amended_pagination (movies : List Movie) (l o : Int)
    (ho : 0 ≤ o) (hl : 0 ≤ l) :
    ∃ d, list_all_movies (.ok movies) l o = .ok d ∧
      d.total = (movies.length : Int) ∧
      (d.has_more = true ↔ o + l < (movies.length : Int)) ∧
      d.movies = ((movies.drop o.toNat).take l.toNat).map (movieEntry 150) ∧
      (d.movies.length : Int) = min l (max 0 ((movies.length : Int) - o)) := by
  refine ⟨_, rfl, rfl, by simp [list_all_movies], ?_, ?_⟩
  · show (pySlice movies o (o + l)).map (movieEntry 150) = _
    rw [pySlice_nonneg movies o l ho hl]
  · show (((pySlice movies o (o + l)).map (movieEntry 150)).length : Int) = _
    rw [pySlice_nonneg movies o l ho hl]
    simp [List.length_take, List.length_drop]
    omega

/-- C2 witness: a three-movie catalog paged with `offset = 1`,
`limit = 1`. -/
theorem c2_amended_pagination_witness :
    ∃ d, list_all_movies
        (.ok [mkMovie "A" (some 2000), mkMovie "B" (some 2001), mkMovie "C" (some 2002)])
        1 1 = .ok d ∧
      d.total = ((3 : Nat) : Int) ∧
      (d.has_more = true ↔ (1 : Int) + 1 < ((3 : Nat) : Int)) ∧
      d.movies = (([mkMovie "A" (some 2000), mkMovie "B" (some 2001),
          mkMovie "C" (some 2002)].drop (1 : Int).toNat).take (1 : Int).toNat).map
          (movieEntry 150) ∧
      (d.movies.length : Int) = min 1 (max 0 (((3 : Nat) : Int) - 1)) :=
  c2_amended_pagination
    [mkMovie "A" (some 2000), mkMovie "B" (some 2001), mkMovie "C" (some 2002)]
    1 1 (by decide) (by decide)

/-- C2 counterexample: with the integer arguments `offset = -1`,
`limit = 1` on a three-movie catalog, Python slicing returns an empty
window, while the claimed formula `min(limit, max(0, total - offset))`
demands one movie. -/
theorem c2_counterexample :
    ((list_all_movies
        (.ok [mkMovie "A" (some 2000), mkMovie "B" (some 2001), mkMovie "C" (some 2002)])
        1 (-1)).toOption.map (fun d => d.movies.length)) = some 0 ∧
    ¬((0 : Int) = min 1 (max 0 ((3 : Int) - (-1)))) :=
  ⟨by decide, by decide⟩

/-- C6: every movie returned by `search_by_year_range` comes from a
catalog item whose year is non-null (and truthy) and lies in
`[start_year, end_year]`, and for `limit ≥ 1` the scan stops exactly
after the first `limit` matches (the window is a prefix of the filtered
collection). -/
theorem c6_year_range_filter (movies : List Movie) (s e lim : Int) :
    ∃ d, search_by_year_range (.ok movies) s e lim = .ok d ∧
      (∀ en ∈ d.movies, ∃ m ∈ movies, yrPred s e m = true ∧ en = yrEntry m ∧
        m.year = some en.year ∧ s ≤ en.year ∧ en.year ≤ e) ∧
      (1 ≤ lim →
        d.movies = ((movies.filter (yrPred s e)).map yrEntry).take lim.toNat) := by
  refine ⟨_, rfl, ?_, ?_⟩
  · intro en hen
    obtain ⟨m, hm, hpm, he⟩ := scanWithLimit_mem _ _ _ _ 0 en hen
    subst he
    cases hy : m.year with
    | none => simp [yrPred, hy] at hpm
    | some y =>
      rw [yrPred, hy] at hpm
      simp only [Bool.and_eq_true, bne_iff_ne, decide_eq_true_eq] at hpm
      exact ⟨m, hm, by rw [yrPred, hy]; simp [hpm.1.1, hpm.1.2, hpm.2], rfl,
        by simp [yrEntry, hy], by simp [yrEntry, hy]; exact hpm.1.2,
        by simp [yrEntry, hy]; exact hpm.2⟩
  · intro hlim
    have h := scanWithLimit_eq_take (yrPred s e) yrEntry lim movies 0 (by omega)
    simpa using h

/-- C6 witness: a catalog with an in-range movie, an out-of-range movie
and a null-year movie, scanned with `limit = 5`. -/
theorem c6_year_range_filter_witness :
    ∃ d, search_by_year_range
        (.ok [mkMovie "A" (some 1994), mkMovie "B" (some 2010), mkMovie "C" none])
        1990 2000 5 = .ok d ∧
      (∀ en ∈ d.movies,
        ∃ m ∈ [mkMovie "A" (some 1994), mkMovie "B" (some 2010), mkMovie "C" none],
          yrPred 1990 2000 m = true ∧ en = yrEntry m ∧
          m.year = some en.year ∧ 1990 ≤ en.year ∧ en.year ≤ 2000) ∧
      ((1 : Int) ≤ 5 →
        d.movies = (([mkMovie "A" (some 1994), mkMovie "B" (some 2010),
          mkMovie "C" none].filter (yrPred 1990 2000)).map yrEntry).take
          (5 : Int).toNat) :=
  c6_year_range_filter [mkMovie "A" (some 1994), mkMovie "B" (some 2010), mkMovie "C" none]
    1990 2000 5

theorem scanWithLimit_length_facts (p : Movie → Bool) (f : Movie → α) (lim : Int)
    (movies : List Movie) :
    (1 ≤ lim → ((scanWithLimit p f lim movies 0).length : Int) ≤ lim) ∧
    (lim ≤ 0 → (∃ m ∈ movies, p m = true) →
      (scanWithLimit p f lim movies 0).length = 1) := by
  constructor
  · intro h
    rw [scanWithLimit_eq_take p f lim movies 0 (by omega)]
    simp [List.length_take]
    omega
  · intro h hm
    rw [scanWithLimit_low p f lim movies 0 (by omega)]
    obtain ⟨m, hm', hpm⟩ := hm
    have hmem : m ∈ movies.filter p := List.mem_filter.mpr ⟨hm', hpm⟩
    have hne : (movies.filter p).length ≠ 0 := by
      intro h0
      rw [List.length_eq_zero] at h0
      rw [h0] at hmem
      simp at hmem
    simp [List.length_take]
    omega

/-- C10: in both scans the limit check runs only after appending, so
`limit ≥ 1` caps the result at `limit` items, while `limit ≤ 0` yields
exactly one item as soon as anything in the collection matches. -/
theorem c10_limit_checked_after_append (movies : List Movie) (s e lim : Int)
    (g d' a : Option (List String)) (yr : Option (Int × Int)) (mr : Option Rat) :
    (∃ dd, search_by_year_range (.ok movies) s e lim = .ok dd ∧
      (1 ≤ lim → ((dd.movies.length : Int) ≤ lim)) ∧
      (lim ≤ 0 → (∃ m ∈ movies, yrPred s e m = true) → dd.movies.length = 1)) ∧
    (∃ dd, search_multi_criteria (.ok movies) g d' a yr mr lim = .ok dd ∧
      (1 ≤ lim → ((dd.movies.length : Int) ≤ lim)) ∧
      (lim ≤ 0 → (∃ m ∈ movies, multiMatch g d' a yr mr m = true) →
        dd.movies.length = 1)) :=
  ⟨⟨_, rfl, (scanWithLimit_length_facts (yrPred s e) yrEntry lim movies).1,
      (scanWithLimit_length_facts (yrPred s e) yrEntry lim movies).2⟩,
    ⟨_, rfl, (scanWithLimit_length_facts (multiMatch g d' a yr mr) multiEntry lim movies).1,
      (scanWithLimit_length_facts (multiMatch g d' a yr mr) multiEntry lim movies).2⟩⟩

/-- C10 witness: with `limit = 0` both scans return exactly one item on
a catalog with two matching movies. -/
theorem c10_limit_checked_after_append_witness :
    (∃ dd, search_by_year_range
        (.ok [mkMovie "A" (some 1994), mkMovie "B" (some 1995)]) 1990 2000 0 = .ok dd ∧
      dd.movies.length = 1) ∧
    (∃ dd, search_multi_criteria
        (.ok [mkMovie "A" (some 1994), mkMovie "B" (some 1995)])
        none none none none none 0 = .ok dd ∧
      dd.movies.length = 1) := by
  obtain ⟨⟨d1, h1, _, hi1⟩, ⟨d2, h2, _, hi2⟩⟩ :=
    c10_limit_checked_after_append [mkMovie "A" (some 1994), mkMovie "B" (some 1995)]
      1990 2000 0 none none none none none
  exact ⟨⟨d1, h1, hi1 (by decide) ⟨mkMovie "A" (some 1994), by decide, by decide⟩⟩,
    ⟨d2, h2, hi2 (by decide) ⟨mkMovie "A" (some 1994), by decide, by decide⟩⟩⟩

/-- C5 (amended): each criterion of `search_multi_criteria` is applied
iff it is provided and truthy in the Python sense (non-empty tag lists,
present year range, non-null and non-zero minimum rating); all applied
criteria must hold conjunctively, tag lists case-insensitively; the scan
stops at `limit` matches; a provided `min_rating` of `0` (falsy) and an
empty genre list are ignored. -/
theorem c5_amended_multi_criteria (movies : List Movie)
    (g d a : Option (List String)) (yr : Option (Int × Int)) (mr : Option Rat)
    (lim : Int) :
    (∃ dd, search_multi_criteria (.ok movies) g d a yr mr lim = .ok dd ∧
      (∀ en ∈ dd.movies, ∃ m ∈ movies,
        multiMatch g d a yr mr m = true ∧ en = multiEntry m ∧
        (listProvided g = true → tagListPass (g.getD []) m.genres = true) ∧
        (listProvided d = true → tagListPass (d.getD []) m.directors = true) ∧
        (listProvided a = true → tagListPass (a.getD []) (m.roles.map Prod.fst) = true) ∧
        (∀ lo hi, yr = some (lo, hi) →
          ∃ y, m.year = some y ∧ y ≠ 0 ∧ lo ≤ y ∧ y ≤ hi) ∧
        (∀ r, mr = some r → r ≠ 0 →
          ∃ v, m.rating = some v ∧ v ≠ 0 ∧ r ≤ v)) ∧
      (1 ≤ lim →
        dd.movies =
          ((movies.filter (multiMatch g d a yr mr)).map multiEntry).take lim.toNat)) ∧
    (search_multi_criteria (.ok movies) g d a yr (some 0) lim).toOption.map
        MultiData.movies =
      (search_multi_criteria (.ok movies) g d a yr none lim).toOption.map
        MultiData.movies ∧
    (search_multi_criteria (.ok movies) (some []) d a yr mr lim).toOption.map
        MultiData.movies =
      (search_multi_criteria (.ok movies) none d a yr mr lim).toOption.map
        MultiData.movies := by
  refine ⟨⟨_, rfl, ?_, ?_⟩, rfl, rfl⟩
  · intro en hen
    obtain ⟨m, hm, hpm, he⟩ := scanWithLimit_mem _ _ _ _ 0 en hen
    have hc := hpm
    simp only [multiMatch] at hc
    simp only [Bool.and_eq_true] at hc
    obtain ⟨⟨⟨⟨h1, h2⟩, h3⟩, h4⟩, h5⟩ := hc
    refine ⟨m, hm, hpm, he, ?_, ?_, ?_, ?_, ?_⟩
    · intro hg
      simpa [hg] using h1
    · intro hd
      simpa [hd] using h2
    · intro ha
      simpa [ha] using h3
    · intro lo hi hyr
      rw [hyr] at h4
      cases hy : m.year with
      | none => rw [hy] at h4; simp at h4
      | some y =>
        rw [hy] at h4
        simp only [Bool.and_eq_true, bne_iff_ne, decide_eq_true_eq] at h4
        exact ⟨y, rfl, h4.1.1, h4.1.2, h4.2⟩
    · intro r hmr hr0
      rw [hmr] at h5
      have hrb : (r != 0) = true := by simpa using hr0
      cases hv : m.rating with
      | none => rw [hv] at h5; simp [hrb] at h5
      | some v =>
        rw [hv] at h5
        simp only [hrb, if_true, Bool.and_eq_true, bne_iff_ne, decide_eq_true_eq] at h5
        exact ⟨v, rfl, h5.1, h5.2⟩
  · intro hlim
    have h := scanWithLimit_eq_take (multiMatch g d a yr mr) multiEntry lim movies 0
      (by omega)
    simpa using h

/-- C5 witness: genre plus rating criteria on a three-movie catalog with
`limit = 10`. -/
theorem c5_amended_multi_criteria_witness :
    (∃ dd, search_multi_criteria
        (.ok [mkMovie "A" (some 1994), mkMovie "B" (some 2005)])
        (some ["Drama"]) none none (some (1990, 2000)) (some 7) 10 = .ok dd ∧
      (∀ en ∈ dd.movies,
        ∃ m ∈ [mkMovie "A" (some 1994), mkMovie "B" (some 2005)],
          multiMatch (some ["Drama"]) none none (some (1990, 2000)) (some 7) m = true ∧
          en = multiEntry m ∧
          (listProvided (some ["Drama"]) = true →
            tagListPass ((some ["Drama"]).getD []) m.genres = true) ∧
          (listProvided none = true → tagListPass ((none : Option (List String)).getD []) m.directors = true) ∧
          (listProvided none = true →
            tagListPass ((none : Option (List String)).getD []) (m.roles.map Prod.fst) = true) ∧
          (∀ lo hi, (some ((1990 : Int), (2000 : Int))) = some (lo, hi) →
            ∃ y, m.year = some y ∧ y ≠ 0 ∧ lo ≤ y ∧ y ≤ hi) ∧
          (∀ r, (some (7 : Rat)) = some r → r ≠ 0 →
            ∃ v, m.rating = some v ∧ v ≠ 0 ∧ r ≤ v)) ∧
      ((1 : Int) ≤ 10 →
        dd.movies =
          (([mkMovie "A" (some 1994), mkMovie "B" (some 2005)].filter
            (multiMatch (some ["Drama"]) none none (some (1990, 2000)) (some 7))).map
            multiEntry).take (10 : Int).toNat)) ∧
    (search_multi_criteria (.ok [mkMovie "A" (some 1994), mkMovie "B" (some 2005)])
        (some ["Drama"]) none none (some (1990, 2000)) (some 0) 10).toOption.map
        MultiData.movies =
      (search_multi_criteria (.ok [mkMovie "A" (some 1994), mkMovie "B" (some 2005)])
        (some ["Drama"]) none none (some (1990, 2000)) none 10).toOption.map
        MultiData.movies ∧
    (search_multi_criteria (.ok [mkMovie "A" (some 1994), mkMovie "B" (some 2005)])
        (some []) none none (some (1990, 2000)) (some 7) 10).toOption.map
        MultiData.movies =
      (search_multi_criteria (.ok [mkMovie "A" (some 1994), mkMovie "B" (some 2005)])
        none none none (some (1990, 2000)) (some 7) 10).toOption.map
        MultiData.movies :=
  c5_amended_multi_criteria [mkMovie "A" (some 1994), mkMovie "B" (some 2005)]
    (some ["Drama"]) none none (some (1990, 2000)) (some 7) 10

/-- C5 counterexample: `min_rating = 0.0` is provided and non-null, yet
the criterion is skipped (Python falsiness), so a movie whose rating is
null — which can satisfy no minimum-rating criterion, as providing
`min_rating = 1` shows — is returned anyway. -/
theorem c5_counterexample :
    (search_multi_criteria (.ok [mkMovie "N" (some 1994)])
        none none none none (some 0) 30).toOption.map
      (fun dd => dd.movies.map MultiEntry.rating) = some [none] ∧
    (search_multi_criteria (.ok [mkMovie "N" (some 1994)])
        none none none none (some 1) 30).toOption.map
      (fun dd => dd.movies.map MultiEntry.rating) = some [] :=
  ⟨by decide, by decide⟩

/-- C3 (amended): items with a truthy year are bucketed into
`f"{(year // 10) * 10}s"` (1994 lands in "1990s"); the decade bucket
counts sum to the number of items with a truthy (non-null, non-zero)
year; the genre and director histograms each report their top-10
entries by descending count with ties in first-encountered order, while
the decades histogram is returned in full, untruncated. -/
theorem c3_amended_library_stats (movies : List Movie) :
    ∃ sd, get_library_stats (.ok movies) = .ok sd ∧
      decadeKey 1994 = "1990s" ∧
      sd.decades = decadesHist movies ∧
      sumCounts sd.decades = (movies.filter (fun m => truthyInt m.year)).length ∧
      (∃ L, L.Perm (genresHist movies) ∧
        List.Pairwise (fun x y => y.2 ≤ x.2) L ∧
        (∀ c, L.filter (fun x => decide (x.2 = c)) =
          (genresHist movies).filter (fun x => decide (x.2 = c))) ∧
        sd.top_genres = L.take 10) ∧
      (∃ L, L.Perm (directorsHist movies) ∧
        List.Pairwise (fun x y => y.2 ≤ x.2) L ∧
        (∀ c, L.filter (fun x => decide (x.2 = c)) =
          (directorsHist movies).filter (fun x => decide (x.2 = c))) ∧
        sd.top_directors = L.take 10) := by
  refine ⟨_, rfl, by decide, rfl, sumCounts_decadesHist movies, ?_, ?_⟩
  · obtain ⟨hp, hs, hf⟩ := stableSortDesc_spec Prod.snd (genresHist movies)
    exact ⟨_, hp, hs, hf, rfl⟩
  · obtain ⟨hp, hs, hf⟩ := stableSortDesc_spec Prod.snd (directorsHist movies)
    exact ⟨_, hp, hs, hf, rfl⟩

/-- An 11-decade catalog plus one movie whose year is `0` (non-null but
Python-falsy). -/
def elevenDecadeCat : List Movie :=
  [mkMovie "m0" (some 1900), mkMovie "m1" (some 1910), mkMovie "m2" (some 1920),
   mkMovie "m3" (some 1930), mkMovie "m4" (some 1940), mkMovie "m5" (some 1950),
   mkMovie "m6" (some 1960), mkMovie "m7" (some 1970), mkMovie "m8" (some 1980),
   mkMovie "m9" (some 1990), mkMovie "m10" (some 2000), mkMovie "z" (some 0)]

/-- C3 counterexample: the decades histogram is returned whole — 11
buckets, not a top-10 — and its counts sum to 11 while 12 items have a
non-null year (the year-0 item is skipped by Python truthiness). -/
theorem c3_counterexample :
    (get_library_stats (.ok elevenDecadeCat)).toOption.map
        (fun sd => sd.decades.length) = some 11 ∧
    ¬((11 : Nat) ≤ 10) ∧
    (get_library_stats (.ok elevenDecadeCat)).toOption.map
        (fun sd => sumCounts sd.decades) = some 11 ∧
    (elevenDecadeCat.filter (fun m => decide (m.year ≠ none))).length = 12 ∧
    (11 : Nat) ≠ 12 :=
  ⟨by decide, by decide, by decide, by decide, by decide⟩

theorem mem_scoredCandidates (sf : List String) (ref : DetailsData) (rf : String)
    (movies : List Movie) (en : SimEntry)
    (h : en ∈ scoredCandidates sf ref rf movies) :
    0 < en.similarity_score ∧ pyLower en.title ≠ pyLower rf := by
  simp only [scoredCandidates, List.mem_filterMap, List.mem_filter] at h
  obtain ⟨m, ⟨hm, hne⟩, hf⟩ := h
  by_cases hs : 0 < simScore sf ref m
  · simp only [hs, if_pos] at hf
    cases hf
    exact ⟨hs, by simpa using hne⟩
  · simp only [hs, if_neg, ite_eq_right_iff] at hf
    simp [hs] at hf

theorem score_of_mem_scoredCandidates (sf : List String) (ref : DetailsData)
    (rf : String) (movies : List Movie) (en : SimEntry)
    (h : en ∈ scoredCandidates sf ref rf movies) :
    0 < en.similarity_score :=
  (mem_scoredCandidates sf ref rf movies en h).1

/-- C4 (amended): with default factors, every candidate is scored
`2·(shared genres) + 3·(shared directors) + (actors shared with the
reference's first ten cast entries) + (1 when both years are truthy and
in the same decade)`; only positive scores are kept, sorted descending
with ties in collection order, capped at 20; candidates equal to the
query title (case-insensitively) are excluded; one shared genre plus one
shared director, no shared actors and no decade bonus scores exactly
5. -/
theorem c4_amended_similarity (movies : List Movie) (rf : String) (ref : DetailsData)
    (h : get_movie_details (.ok movies) rf = .ok ref) :
    ∃ sd, find_similar_by_metadata (.ok movies) rf none = .ok sd ∧
      sd.similarity_factors = defaultFactors ∧
      sd.similar_movies.length ≤ 20 ∧
      (∀ en ∈ sd.similar_movies, 0 < en.similarity_score) ∧
      (∀ en ∈ sd.similar_movies, pyLower en.title ≠ pyLower rf) ∧
      List.Pairwise (fun x y => y.similarity_score ≤ x.similarity_score)
        sd.similar_movies ∧
      (∃ L, L.Perm (scoredCandidates defaultFactors ref rf movies) ∧
        List.Pairwise (fun x y => y.similarity_score ≤ x.similarity_score) L ∧
        (∀ c, L.filter (fun x => decide (x.similarity_score = c)) =
          (scoredCandidates defaultFactors ref rf movies).filter
            (fun x => decide (x.similarity_score = c))) ∧
        sd.similar_movies = L.take 20) ∧
      sd.total_found = (scoredCandidates defaultFactors ref rf movies).length ∧
      (∀ m : Movie, interCount ref.genres m.genres = 1 →
        interCount ref.directors m.directors = 1 →
        interCount (ref.actors.map Prod.fst) (m.roles.map Prod.fst) = 0 →
        decadeBonus ref.year m.year = 0 →
        simScore defaultFactors ref m = 5) := by
  have heq : find_similar_by_metadata (.ok movies) rf none =
      .ok ⟨rf, (List.insertionSort (descBy SimEntry.similarity_score)
          (scoredCandidates defaultFactors ref rf movies)).take 20, defaultFactors,
        (scoredCandidates defaultFactors ref rf movies).length⟩ := by
    unfold find_similar_by_metadata
    rw [h]
    rfl
  obtain ⟨hp, hs, hf⟩ :=
    stableSortDesc_spec SimEntry.similarity_score
      (scoredCandidates defaultFactors ref rf movies)
  refine ⟨_, heq, rfl, ?_, ?_, ?_, ?_, ⟨_, hp, hs, hf, rfl⟩, rfl, ?_⟩
  · simp [List.length_take]
  · intro en hen
    have hmem : en ∈ List.insertionSort (descBy SimEntry.similarity_score)
        (scoredCandidates defaultFactors ref rf movies) :=
      List.take_subset _ _ hen
    exact score_of_mem_scoredCandidates _ _ _ _ _ (hp.mem_iff.mp hmem)
  · intro en hen
    have hmem : en ∈ List.insertionSort (descBy SimEntry.similarity_score)
        (scoredCandidates defaultFactors ref rf movies) :=
      List.take_subset _ _ hen
    exact (mem_scoredCandidates _ _ _ _ _ (hp.mem_iff.mp hmem)).2
  · exact hs.sublist (List.take_sublist _ _)
  · intro m h1 h2 h3 h4
    rw [simScore, h1, h2, h3, h4]
    decide

/-- The reference movie of the C4 witness catalog. -/
def refM : Movie :=
  ⟨"Ref", some 1960, none, none, "", ["Drama"], ["Kubrick"], [], [], [], none, none, []⟩

/-- A candidate sharing one genre and one director with `refM`, in a
different decade, with no cast. -/
def candM : Movie :=
  ⟨"Cand", some 1991, none, none, "", ["Drama", "Action"], ["Kubrick"], [], [], [],
    none, none, []⟩

/-- The detail payload `get_movie_details` resolves for `refM`. -/
def refD : DetailsData :=
  ⟨"Ref", some 1960, none, none, "", ["Drama"], ["Kubrick"], [], [], [], none, none, []⟩

/-- C4 witness: the two-movie catalog `[refM, candM]` with reference
"Ref". -/
theorem c4_amended_similarity_witness :
    get_movie_details (.ok [refM, candM]) "Ref" = .ok refD ∧
    (∃ sd, find_similar_by_metadata (.ok [refM, candM]) "Ref" none = .ok sd ∧
      sd.similarity_factors = defaultFactors ∧
      sd.similar_movies.length ≤ 20 ∧
      (∀ en ∈ sd.similar_movies, 0 < en.similarity_score) ∧
      (∀ en ∈ sd.similar_movies, pyLower en.title ≠ pyLower "Ref") ∧
      List.Pairwise (fun x y => y.similarity_score ≤ x.similarity_score)
        sd.similar_movies ∧
      (∃ L, L.Perm (scoredCandidates defaultFactors refD "Ref" [refM, candM]) ∧
        List.Pairwise (fun x y => y.similarity_score ≤ x.similarity_score) L ∧
        (∀ c, L.filter (fun x => decide (x.similarity_score = c)) =
          (scoredCandidates defaultFactors refD "Ref" [refM, candM]).filter
            (fun x => decide (x.similarity_score = c))) ∧
        sd.similar_movies = L.take 20) ∧
      sd.total_found = (scoredCandidates defaultFactors refD "Ref" [refM, candM]).length ∧
      (∀ m : Movie, interCount refD.genres m.genres = 1 →
        interCount refD.directors m.directors = 1 →
        interCount (refD.actors.map Prod.fst) (m.roles.map Prod.fst) = 0 →
        decadeBonus refD.year m.year = 0 →
        simScore defaultFactors refD m = 5)) :=
  ⟨by decide, c4_amended_similarity [refM, candM] "Ref" refD (by decide)⟩

/-- The C4 counterexample reference: eleven cast entries, year `0`. -/
def ref11 : Movie :=
  ⟨"Rxx", some 0, none, none, "", [], [], [],
    [("A0", ""), ("A1", ""), ("A2", ""), ("A3", ""), ("A4", ""), ("A5", ""),
     ("A6", ""), ("A7", ""), ("A8", ""), ("A9", ""), ("A10", "")],
    [], none, none, []⟩

/-- The C4 counterexample candidate: shares all eleven actors and the
year-0 decade with `ref11`. -/
def cand11 : Movie :=
  ⟨"Cyy", some 0, none, none, "", [], [], [],
    [("A0", ""), ("A1", ""), ("A2", ""), ("A3", ""), ("A4", ""), ("A5", ""),
     ("A6", ""), ("A7", ""), ("A8", ""), ("A9", ""), ("A10", "")],
    [], none, none, []⟩

/-- C4 counterexample: a candidate sharing eleven actors and the same
(zero) decade with the reference scores 10, not the 11 + 1 = 12 the
claim's "+1 per shared actor, +1 for same decade" demands: the
reference's cast is cut to ten entries by the detail lookup, and year 0
is falsy so no decade bonus is added. -/
theorem c4_counterexample :
    (find_similar_by_metadata (.ok [ref11, cand11]) "Rxx" none).toOption.map
        (fun sd => sd.similar_movies.map SimEntry.similarity_score) = some [10] ∧
    ((10 : Nat) = 11 + 1 → False) :=
  ⟨by decide, by decide⟩
